import Mathlib

/-!
Shallow embedding of the webapp-core CDK application (bin/app.ts and the
stack classes under lib/) together with proofs about its configuration
resolution, construction order, dependency graph, and cross-stack wiring.

Conventions of the embedding:
* environment-style overrides are an `Overrides` record of `Option String`
  fields, one per `process.env` key the application reads;
* JavaScript number coercion (`Number(s)`) is modelled by `jsStringToNum`,
  returning a `JsNum` (NaN, an infinity, or a finite rational);
* JavaScript truthiness of `x` in `x || d` is modelled by `JsNum.truthy`
  for numbers and by non-emptiness for strings;
* deploy-time tokens (generated domain names, resource ids) are modelled
  symbolically by inductive value types, never collapsed into strings.
-/

namespace WebappCore

/-- JavaScript number values as produced by the `Number` coercion: NaN, one of
the two infinities, or a finite value (modelled as a rational). -/
inductive JsNum where
  | nan
  | posInf
  | negInf
  | fin (q : ℚ)
deriving DecidableEq, Repr

/-- JavaScript truthiness of a number: NaN and 0 are falsy, everything else
(including the infinities) is truthy. -/
def JsNum.truthy : JsNum → Bool
  | .nan => false
  | .posInf => true
  | .negInf => true
  | .fin q => decide (q ≠ 0)

/-- Whitespace characters stripped by the JavaScript `Number` coercion. -/
def isJsWs (c : Char) : Bool :=
  c == ' ' || c == '\t' || c == '\n' || c == '\r' || c == '\x0b' || c == '\x0c'

/-- Strip leading and trailing whitespace. -/
def trimWs (l : List Char) : List Char :=
  ((l.dropWhile isJsWs).reverse.dropWhile isJsWs).reverse

/-- Decimal digit value of a character, if it is one. -/
def decDigit? (c : Char) : Option ℕ :=
  if c.isDigit then some (c.toNat - 48) else none

/-- Hexadecimal digit value of a character, if it is one. -/
def hexDigit? (c : Char) : Option ℕ :=
  if c.isDigit then some (c.toNat - 48)
  else if 97 ≤ c.toNat ∧ c.toNat ≤ 102 then some (c.toNat - 87)
  else if 65 ≤ c.toNat ∧ c.toNat ≤ 70 then some (c.toNat - 55)
  else none

/-- Octal digit value of a character, if it is one. -/
def octDigit? (c : Char) : Option ℕ :=
  if 48 ≤ c.toNat ∧ c.toNat ≤ 55 then some (c.toNat - 48) else none

/-- Binary digit value of a character, if it is one. -/
def binDigit? (c : Char) : Option ℕ :=
  if c == '0' then some 0 else if c == '1' then some 1 else none

/-- Value of a digit string in the given base (digits assumed valid). -/
def digitsVal (base : ℕ) (digit? : Char → Option ℕ) (l : List Char) : ℕ :=
  l.foldl (fun acc c => acc * base + (digit? c).getD 0) 0

/-- Whether every character of the list is a digit for `digit?`. -/
def allDigits (digit? : Char → Option ℕ) (l : List Char) : Bool :=
  l.all fun c => (digit? c).isSome

/-- Radix literal body (after a `0x`/`0o`/`0b` marker): a non-empty run of
digits of the base, otherwise NaN. -/
def parseRadix (base : ℕ) (digit? : Char → Option ℕ) (l : List Char) : JsNum :=
  if l ≠ [] ∧ allDigits digit? l then .fin (digitsVal base digit? l) else .nan

/-- Decimal mantissa: digits, digits.digits, digits., or .digits. -/
def parseMantissa (l : List Char) : Option ℚ :=
  match l.splitOn '.' with
  | [ip] =>
    if ip ≠ [] ∧ allDigits decDigit? ip then some (digitsVal 10 decDigit? ip) else none
  | [ip, fp] =>
    if (ip ≠ [] ∨ fp ≠ []) ∧ allDigits decDigit? ip ∧ allDigits decDigit? fp then
      some ((digitsVal 10 decDigit? ip : ℚ) +
            (digitsVal 10 decDigit? fp : ℚ) / (10 : ℚ) ^ fp.length)
    else none
  | _ => none

/-- Exponent part of a decimal literal: optional sign then digits. -/
def parseExp (l : List Char) : Option ℤ :=
  match l with
  | '+' :: rest =>
    if rest ≠ [] ∧ allDigits decDigit? rest then some (digitsVal 10 decDigit? rest) else none
  | '-' :: rest =>
    if rest ≠ [] ∧ allDigits decDigit? rest then some (-(digitsVal 10 decDigit? rest : ℤ))
    else none
  | _ => if l ≠ [] ∧ allDigits decDigit? l then some (digitsVal 10 decDigit? l) else none

/-- Integer power of ten as a rational. -/
def pow10 (e : ℤ) : ℚ :=
  if 0 ≤ e then (10 : ℚ) ^ e.toNat else 1 / (10 : ℚ) ^ (-e).toNat

/-- Split a literal at its first exponent marker (e or E), if any. -/
def splitAtExpMarker (l : List Char) : List Char × Option (List Char) :=
  match l.findIdx? (fun c => c == 'e' || c == 'E') with
  | none => (l, none)
  | some i => (l.take i, some (l.drop (i + 1)))

/-- Unsigned numeric literal: the word Infinity, or a decimal mantissa with
an optional exponent. Anything else is NaN. -/
def parseUnsignedJs (l : List Char) : JsNum :=
  if l = "Infinity".data then .posInf
  else
    match splitAtExpMarker l with
    | (m, none) =>
      match parseMantissa m with
      | some q => .fin q
      | none => .nan
    | (m, some e) =>
      match parseMantissa m, parseExp e with
      | some q, some ex => .fin (q * pow10 ex)
      | _, _ => .nan

/-- Negate a JavaScript number. -/
def JsNum.negate : JsNum → JsNum
  | .nan => .nan
  | .posInf => .negInf
  | .negInf => .posInf
  | .fin q => .fin (-q)

/-- Signed numeric literal: optional single leading sign. -/
def parseSignedJs (l : List Char) : JsNum :=
  match l with
  | '+' :: rest => parseUnsignedJs rest
  | '-' :: rest => (parseUnsignedJs rest).negate
  | _ => parseUnsignedJs l

/-- Trimmed `Number` coercion body: empty means 0; 0x/0o/0b radix literals
(no sign allowed); otherwise a signed decimal literal. -/
def jsNumOfTrimmed (l : List Char) : JsNum :=
  match l with
  | [] => .fin 0
  | '0' :: c :: rest =>
    if c == 'x' || c == 'X' then parseRadix 16 hexDigit? rest
    else if c == 'o' || c == 'O' then parseRadix 8 octDigit? rest
    else if c == 'b' || c == 'B' then parseRadix 2 binDigit? rest
    else parseSignedJs ('0' :: c :: rest)
  | _ => parseSignedJs l

/-- Models the JavaScript `Number(s)` coercion of a string: trim whitespace,
then parse as a numeric literal, yielding NaN on failure. -/
def jsStringToNum (s : String) : JsNum :=
  jsNumOfTrimmed (trimWs s.data)

/-- `Number` applied to an environment lookup: `Number(undefined)` is NaN. -/
def jsNumOfEnv (v : Option String) : JsNum :=
  match v with
  | none => .nan
  | some s => jsStringToNum s

/-- Models the app.ts idiom `Number(process.env.X) || d`: the coerced number
when it is truthy, otherwise the default. -/
def resolveNum (v : Option String) (d : ℚ) : JsNum :=
  if (jsNumOfEnv v).truthy then jsNumOfEnv v else .fin d

/-- Models the app.ts idiom `process.env.X || d` for string settings: the
override when present and non-empty, otherwise the default. -/
def strOr (v : Option String) (d : String) : String :=
  match v with
  | none => d
  | some s => if s = "" then d else s

/-- Models the app.ts idiom `process.env.X || undefined`: an absent or empty
override collapses to undefined. -/
def optOr (v : Option String) : Option String :=
  match v with
  | none => none
  | some s => if s = "" then none else some s

/-- JavaScript truthiness of an environment string value. -/
def envTruthy (v : Option String) : Bool :=
  match v with
  | none => false
  | some s => decide (s ≠ "")

/-- The environment-style overrides read by bin/app.ts and lib/ecs-stack.ts,
one optional field per `process.env` key. -/
structure Overrides where
  AWS_REGION : Option String := none
  PROJECT_NAME : Option String := none
  VPC_CIDR : Option String := none
  MAX_AZS : Option String := none
  ECR_REPO_NAME : Option String := none
  DB_NAME : Option String := none
  DB_ENGINE : Option String := none
  DB_ENGINE_VERSION : Option String := none
  DB_INSTANCE_CLASS : Option String := none
  DB_USERNAME : Option String := none
  COGNITO_USER_POOL_NAME : Option String := none
  COGNITO_APP_CLIENT_NAME : Option String := none
  CONTAINER_IMAGE_URI : Option String := none
  ECS_CONTAINER_PORT : Option String := none
  ECS_DESIRED_COUNT : Option String := none
  ECS_TASK_CPU : Option String := none
  ECS_TASK_MEMORY : Option String := none
  FRONTEND_DOMAIN : Option String := none
  FRONTEND_CERT_ARN : Option String := none
  BACKEND_CERT_ARN : Option String := none
deriving DecidableEq

/-- The fully-resolved configuration produced by bin/app.ts before any stack
is instantiated: every constructor argument that is derived from an override
with a default, in source order. -/
structure Config where
  envRegion : String
  projectName : String
  cidr : String
  maxAzs : JsNum
  repoName : String
  dbName : String
  dbEngine : String
  dbEngineVersion : String
  dbInstanceClass : String
  dbUsername : String
  userPoolName : String
  webClientName : String
  clusterName : String
  taskImage : Option String
  containerPort : JsNum
  desiredCount : JsNum
  cpu : JsNum
  memory : JsNum
  bucketName : String
  cloudFrontDomain : Option String
  cloudFrontCertArn : Option String
  backendCertArn : Option String
deriving DecidableEq

/-- Configuration resolution as performed inline in bin/app.ts (lines 17-84):
each stack constructor argument computed from the overrides with the
hardcoded fallback written in the source. -/
def resolveConfig (ov : Overrides) : Config :=
  let projectName := strOr ov.PROJECT_NAME "webapp-core"
  { envRegion := strOr ov.AWS_REGION "us-east-1"
    projectName := projectName
    cidr := strOr ov.VPC_CIDR "10.0.0.0/16"
    maxAzs := resolveNum ov.MAX_AZS 2
    repoName := strOr ov.ECR_REPO_NAME (projectName ++ "-app-repo")
    dbName := strOr ov.DB_NAME "appdb"
    dbEngine := strOr ov.DB_ENGINE "mysql"
    dbEngineVersion := strOr ov.DB_ENGINE_VERSION "8.0"
    dbInstanceClass := strOr ov.DB_INSTANCE_CLASS "db.t3.micro"
    dbUsername := strOr ov.DB_USERNAME "admin"
    userPoolName := strOr ov.COGNITO_USER_POOL_NAME (projectName ++ "-users")
    webClientName := strOr ov.COGNITO_APP_CLIENT_NAME (projectName ++ "-web-client")
    clusterName := projectName ++ "-cluster"
    taskImage := optOr ov.CONTAINER_IMAGE_URI
    containerPort := resolveNum ov.ECS_CONTAINER_PORT 80
    desiredCount := resolveNum ov.ECS_DESIRED_COUNT 2
    cpu := resolveNum ov.ECS_TASK_CPU 256
    memory := resolveNum ov.ECS_TASK_MEMORY 512
    bucketName := projectName ++ "-frontend-bucket"
    cloudFrontDomain := optOr ov.FRONTEND_DOMAIN
    cloudFrontCertArn := optOr ov.FRONTEND_CERT_ARN
    backendCertArn := ov.BACKEND_CERT_ARN }

/-- The six components (CDK stacks) instantiated by bin/app.ts, under the
role names used by the specification: Network = NetworkStack, Registry =
EcrStack, Database = DatabaseStack, Identity = AuthStack, Compute =
EcsStack, Edge = FrontendStack. -/
inductive Component where
  | network
  | registry
  | database
  | identity
  | compute
  | edge
deriving DecidableEq, Fintype, Repr

/-- All components, listed in the order their `new XxxStack(...)` statements
appear in bin/app.ts (lines 27-85). -/
def instantiationOrder : List Component :=
  [.network, .registry, .database, .identity, .compute, .edge]

/-- Output handles of one component that bin/app.ts passes as a constructor
input of another. -/
inductive Handle where
  | vpc
  | dbSecret
  | dbSecurityGroup
  | albDomain
deriving DecidableEq, Fintype, Repr

/-- The producer-output pairs each component consumes as constructor inputs,
read off the `new XxxStack(...)` argument lists in bin/app.ts: Database gets
`networkStack.vpc`; Compute gets `networkStack.vpc`, `databaseStack.dbSecret`
and `databaseStack.dbSecurityGroup`; Edge gets `ecsStack.albDomain`. -/
def consumedOutputs : Component → List (Component × Handle)
  | .network => []
  | .registry => []
  | .database => [(.network, .vpc)]
  | .identity => []
  | .compute => [(.network, .vpc), (.database, .dbSecret), (.database, .dbSecurityGroup)]
  | .edge => [(.compute, .albDomain)]

/-- The explicit deploy-after constraints registered by bin/app.ts lines
88-93 via `addDependency`: the pair (a, b) records the call
`aStack.addDependency(bStack)`, i.e. a deploys after b. -/
def deployAfterEdges : List (Component × Component) :=
  [(.compute, .database), (.compute, .network), (.database, .network),
   (.edge, .compute), (.edge, .network), (.edge, .identity)]

/-- The deploy-after graph with the ordering-only Edge-after-Identity
constraint removed (end-to-end scenario 4 of the specification). -/
def deployAfterEdgesNoIdentity : List (Component × Component) :=
  deployAfterEdges.filter fun p => decide (p ≠ (Component.edge, Component.identity))

/-- Enumeration of all components (used by the bounded reachability search). -/
def allComponents : List Component :=
  [.network, .registry, .database, .identity, .compute, .edge]

/-- Single-edge step of a dependency graph given as an edge list. -/
def stepB (e : List (Component × Component)) (a b : Component) : Bool :=
  decide ((a, b) ∈ e)

/-- Bounded reachability along graph edges: `reachB e n a b` holds when there
is a path of between 1 and n+1 edges from a to b. -/
def reachB (e : List (Component × Component)) : ℕ → Component → Component → Bool
  | 0, a, b => stepB e a b
  | n + 1, a, b => stepB e a b || allComponents.any fun c => stepB e a c && reachB e n c b

/-- Acyclicity of an edge list: no component reaches itself by a non-empty
path of any length. -/
def NoCycle (e : List (Component × Component)) : Prop :=
  ∀ n a, reachB e n a a = false

/-- Topological rank of each component in the deploy-after graph. -/
def deployRank : Component → ℕ
  | .network => 0
  | .registry => 0
  | .identity => 0
  | .database => 1
  | .compute => 2
  | .edge => 3

/-- A string-valued deploy artifact: either a literal string known at
synthesis time, or a deploy-time attribute token of a component (such as a
generated CloudFront domain name). -/
inductive StrVal where
  | lit (s : String)
  | attrOf (c : Component) (a : String)
deriving DecidableEq, Repr

/-- The FrontendURL CfnOutput value of bin/app.ts lines 96-101: the template
string with the custom domain when `process.env.FRONTEND_DOMAIN` is truthy,
otherwise the CloudFront distribution's generated domainName attribute of the
Edge component. -/
def frontendURL (ov : Overrides) : StrVal :=
  match ov.FRONTEND_DOMAIN with
  | some d => if d ≠ "" then .lit ("https://" ++ d) else .attrOf .edge "domainName"
  | none => .attrOf .edge "domainName"

/-- Split a string at every dot, as the JavaScript split method with a dot
separator does (an empty string yields one empty segment). -/
def splitDot (s : String) : List String :=
  (s.data.splitOn '.').map fun l => ⟨l⟩

/-- ASCII uppercase of a string (models the JavaScript toUpperCase call on
the identifier-like instance-class segments). -/
def upperStr (s : String) : String :=
  ⟨s.data.map Char.toUpper⟩

/-- ASCII lowercase of a string (models the JavaScript toLowerCase call on
the engine name). -/
def lowerStr (s : String) : String :=
  ⟨s.data.map Char.toLower⟩

/-- Whether the first list is an initial segment of the second. -/
def leadsWith : List Char → List Char → Bool
  | [], _ => true
  | _ :: _, [] => false
  | a :: as, b :: bs => a == b && leadsWith as bs

/-- Whether the first list occurs contiguously inside the second. -/
def occursIn (needle : List Char) (hay : List Char) : Bool :=
  leadsWith needle hay ||
    match hay with
    | [] => false
    | _ :: bs => occursIn needle bs

/-- Whether the second string occurs as a substring of the first (models the
JavaScript includes call). -/
def strIncludes (hay : String) (needle : String) : Bool :=
  occursIn needle.data hay.data

/-- Decidable equality for fallible results over decidable components. -/
instance instDecEqExceptLocal {ε α : Type} [DecidableEq ε] [DecidableEq α] :
    DecidableEq (Except ε α) := fun a b =>
  match a, b with
  | .error e, .error f =>
    if h : e = f then isTrue (by rw [h]) else isFalse (by simp [h])
  | .error _, .ok _ => isFalse (by simp)
  | .ok _, .error _ => isFalse (by simp)
  | .ok a, .ok b =>
    if h : a = b then isTrue (by rw [h]) else isFalse (by simp [h])

/-- Modelled from the aws-cdk-lib ec2.InstanceClass enum (external library):
a representative subset of its key-to-value entries; a key absent from the
enum yields no entry, which the source turns into the T3 fallback. -/
def instanceClassPairs : List (String × String) :=
  [("T2", "t2"), ("T3", "t3"), ("T3A", "t3a"), ("T4G", "t4g"),
   ("M5", "m5"), ("M6G", "m6g"), ("C5", "c5"), ("C6G", "c6g"),
   ("R5", "r5"), ("R6G", "r6g"), ("M5D", "m5d"), ("C5N", "c5n")]

/-- Modelled from the aws-cdk-lib ec2.InstanceSize enum (external library):
a representative subset of its key-to-value entries; a key absent from the
enum yields no entry, which the source turns into the MICRO fallback. -/
def instanceSizePairs : List (String × String) :=
  [("NANO", "nano"), ("MICRO", "micro"), ("SMALL", "small"),
   ("MEDIUM", "medium"), ("LARGE", "large"), ("XLARGE", "xlarge"),
   ("XLARGE2", "2xlarge"), ("XLARGE4", "4xlarge")]

/-- Enum member lookup with the fallback of the source's logical-or: the
enum value when the key is present, the hardcoded default otherwise. -/
def lookupEnum (pairs : List (String × String)) (key : String) (dflt : String) : String :=
  (pairs.lookup key).getD dflt

/-- The instance-type computation of the DatabaseStack constructor
(lib/database-stack.ts, the `ec2.InstanceType.of(...)` argument pair):
`split('.')[1].toUpperCase()` and `split('.')[2].toUpperCase()` with enum
lookup and T3/MICRO fallbacks; indexing past the end of the split yields
undefined, on which the toUpperCase call throws a TypeError. -/
def parseDbInstanceType (s : String) : Except String (String × String) :=
  let parts := splitDot s
  match parts[1]? with
  | none => .error "TypeError: undefined has no toUpperCase"
  | some p1 =>
    let cls := lookupEnum instanceClassPairs (upperStr p1) "t3"
    match parts[2]? with
    | none => .error "TypeError: undefined has no toUpperCase"
    | some p2 =>
      let sz := lookupEnum instanceSizePairs (upperStr p2) "micro"
      .ok (cls, sz)

/-- The engine selection of the DatabaseStack constructor: postgres 13.4 when
the lowercased engine name includes postgres, aurora-mysql 3.03.0 when it
includes aurora, and mysql 8.0.28 otherwise. -/
def chooseEngine (dbEngine : String) : String :=
  if strIncludes (lowerStr dbEngine) "postgres" then "postgres@13.4"
  else if strIncludes (lowerStr dbEngine) "aurora" then "aurora-mysql@3.03.0"
  else "mysql@8.0.28"

/-- The observable construction result of the DatabaseStack: chosen engine,
parsed instance class and size, the username placed in the generated secret
template, and the database name. -/
structure DbResult where
  engine : String
  instanceClass : String
  instanceSize : String
  secretUsername : String
  databaseName : String
deriving DecidableEq, Repr

/-- The DatabaseStack constructor as a fallible computation: a thrown
TypeError from the instance-class parse is modelled as an error result. -/
def buildDatabaseStack (cfg : Config) : Except String DbResult :=
  match parseDbInstanceType cfg.dbInstanceClass with
  | .error e => .error e
  | .ok (cls, sz) =>
    .ok { engine := chooseEngine cfg.dbEngine
          instanceClass := cls
          instanceSize := sz
          secretUsername := cfg.dbUsername
          databaseName := cfg.dbName }

/-- Symbolic references to the resources whose handles cross stack
boundaries. -/
inductive ResRef where
  | dbSecurityGroupRef
  | dbSecretRef
  | dbInstanceRef
  | ecsSecurityGroupRef
  | albSecurityGroupRef
  | endpointsSecurityGroupRef
deriving DecidableEq, Fintype, Repr

/-- Owner component of each cross-referenced resource: the stack whose
constructor creates it. -/
def resOwner : ResRef → Component
  | .endpointsSecurityGroupRef => .network
  | .dbSecurityGroupRef => .database
  | .dbSecretRef => .database
  | .dbInstanceRef => .database
  | .ecsSecurityGroupRef => .compute
  | .albSecurityGroupRef => .compute

/-- A container environment-variable value: a literal string, a
security-group id token, a field of a secret's JSON value, or another
deploy-time attribute of a resource. -/
inductive EnvVal where
  | lit (s : String)
  | sgId (r : ResRef)
  | secretJsonField (r : ResRef) (key : String)
  | resAttr (r : ResRef) (a : String)
deriving DecidableEq, Repr

/-- The DB_HOST wiring of lib/ecs-stack.ts line 71: the database security
group's id when the prop is truthy, the empty string otherwise. -/
def dbHostEnvValue (dbSgPresent : Bool) : EnvVal :=
  if dbSgPresent then .sgId .dbSecurityGroupRef else .lit ""

/-- The DB_NAME wiring of lib/ecs-stack.ts line 72: a ternary on the
dbSecret prop whose two branches both read the username field of the
database credential secret. -/
def dbNameEnvValue (dbSecretPresent : Bool) : EnvVal :=
  if dbSecretPresent then .secretJsonField .dbSecretRef "username"
  else .secretJsonField .dbSecretRef "username"

/-- The environment block of the app container (lib/ecs-stack.ts lines
70-75). The dbSecurityGroup and dbSecret props are non-optional object
references; the Bools keep the truthiness-conditional structure of the
source. -/
def containerEnvironment (dbSgPresent dbSecretPresent : Bool) :
    List (String × EnvVal) :=
  [("DB_HOST", dbHostEnvValue dbSgPresent),
   ("DB_NAME", dbNameEnvValue dbSecretPresent),
   ("DB_USER", .secretJsonField .dbSecretRef "username")]

/-- The environment as actually built by the orchestrator: both database
props are always passed (app.ts lines 71-72), and objects are truthy. -/
def ecsContainerEnv : List (String × EnvVal) :=
  containerEnvironment true true

/-- The DatabaseEndpoint output of the DatabaseStack: the instance's
host-and-port socket address, i.e. the database's actual network address. -/
def databaseEndpointOutput : EnvVal :=
  .resAttr .dbInstanceRef "instanceEndpoint.socketAddress"

/-- Declared subnet tiers of the NetworkStack VPC. -/
inductive SubnetKind where
  | public
  | privateWithEgress
  | privateIsolated
deriving DecidableEq, Repr

/-- The Vpc construction arguments of the NetworkStack constructor
(lib/network-stack.ts lines 21-42): address block, AZ count, one NAT gateway
per AZ, and the three named subnet tiers. -/
structure VpcProps where
  cidr : String
  maxAzs : JsNum
  natGateways : JsNum
  subnetGroups : List (String × SubnetKind)
deriving DecidableEq

/-- The NetworkStack VPC as built from a resolved configuration. -/
def buildNetworkVpc (cfg : Config) : VpcProps :=
  { cidr := cfg.cidr
    maxAzs := cfg.maxAzs
    natGateways := cfg.maxAzs
    subnetGroups := [("Public", .public), ("Application", .privateWithEgress),
                     ("Database", .privateIsolated)] }

/-- Direction of a security-group rule. -/
inductive Direction where
  | ingress
  | egress
deriving DecidableEq, Repr

/-- The peer a security-group rule refers to. -/
inductive Peer where
  | sg (r : ResRef)
  | ipv4 (cidr : String)
  | prefList (id : String)
deriving DecidableEq, Repr

/-- One addIngressRule/addEgressRule call: which component's constructor
performs it, which security group object it modifies, and the rule data. -/
structure RuleAdd where
  actor : Component
  target : ResRef
  dir : Direction
  peer : Peer
  port : JsNum
  desc : String
deriving DecidableEq, Repr

/-- The one rule addition that crosses a component boundary: inside the
EcsStack constructor (lib/ecs-stack.ts lines 192-197), an ingress rule is
added to the Database's security group allowing the ECS security group on
port 3306. -/
def dbAccessRule : RuleAdd :=
  { actor := .compute, target := .dbSecurityGroupRef, dir := .ingress,
    peer := .sg .ecsSecurityGroupRef, port := .fin 3306,
    desc := "Allow ECS tasks to access RDS" }

/-- Security-group rule additions performed by the NetworkStack constructor
(lib/network-stack.ts lines 52-60): one HTTPS ingress per application-subnet
CIDR block; the subnet CIDR list is produced by the external library, so it
is a parameter. -/
def networkRuleAdds (appSubnetCidrs : List String) : List RuleAdd :=
  appSubnetCidrs.map fun c =>
    { actor := .network, target := .endpointsSecurityGroupRef, dir := .ingress,
      peer := .ipv4 c, port := .fin 443,
      desc := "Allow HTTPS from application subnets" }

/-- Security-group rule additions performed by the EcsStack constructor
(lib/ecs-stack.ts), in source order: CloudFront ingress to the ALB group,
ALB egress to the ECS group, ALB ingress to the ECS group, the extra HTTP
ingress when no backend certificate is configured, and finally the ingress
added to the Database's security group. -/
def ecsRuleAdds (backendCertArn : Option String) (containerPort : JsNum) :
    List RuleAdd :=
  [{ actor := .compute, target := .albSecurityGroupRef, dir := .ingress,
     peer := .prefList "pl-3b927c52", port := .fin 443,
     desc := "Allow CloudFront only" },
   { actor := .compute, target := .albSecurityGroupRef, dir := .egress,
     peer := .sg .ecsSecurityGroupRef, port := containerPort,
     desc := "Allow ALB to reach ECS tasks" },
   { actor := .compute, target := .ecsSecurityGroupRef, dir := .ingress,
     peer := .sg .albSecurityGroupRef, port := containerPort,
     desc := "Allow traffic from ALB" }] ++
  (if envTruthy backendCertArn then []
   else
     [{ actor := .compute, target := .albSecurityGroupRef, dir := .ingress,
        peer := .prefList "pl-3b927c52", port := .fin 80,
        desc := "Allow CloudFront HTTP (no cert scenario)" }]) ++
  [dbAccessRule]

/-- All security-group rule additions of one construction pass. -/
def allRuleAdds (cfg : Config) (appSubnetCidrs : List String) : List RuleAdd :=
  networkRuleAdds appSubnetCidrs ++ ecsRuleAdds cfg.backendCertArn cfg.containerPort

example : (resolveConfig {}).maxAzs = .fin 2 := by decide

example : (resolveConfig { MAX_AZS := some "3" }).maxAzs = .fin 3 := by decide

example : (resolveConfig { MAX_AZS := some "-3" }).maxAzs = .fin (-3) := by decide

example : (resolveConfig { MAX_AZS := some "abc" }).maxAzs = .fin 2 := by decide

example : jsStringToNum "0x10" = .fin 16 := by decide

example : jsStringToNum " 12 " = .fin 12 := by decide

example : jsStringToNum "Infinity" = .posInf := by decide

lemma mem_allComponents (c : Component) : c ∈ allComponents := by
  cases c <;> decide

lemma stepB_sound {e a b} (h : stepB e a b = true) : (a, b) ∈ e := by
  simpa [stepB] using h

/-- A rank function strictly decreasing along every edge bounds reachability:
any reachable node has strictly smaller rank. -/
lemma reachB_rank_lt (e : List (Component × Component)) (r : Component → ℕ)
    (he : ∀ p ∈ e, r p.2 < r p.1) :
    ∀ n a b, reachB e n a b = true → r b < r a := by
  intro n
  induction n with
  | zero =>
    intro a b h
    exact he (a, b) (stepB_sound h)
  | succ n ih =>
    intro a b h
    rcases Bool.or_eq_true_iff.mp h with h1 | h2
    · exact he (a, b) (stepB_sound h1)
    · rcases List.any_eq_true.mp h2 with ⟨c, _, hc⟩
      rcases Bool.and_eq_true_iff.mp hc with ⟨hstep, hreach⟩
      exact lt_trans (ih c b hreach) (he (a, c) (stepB_sound hstep))

/-- A graph admitting a strictly decreasing rank function has no cycle. -/
lemma noCycle_of_rank (e : List (Component × Component)) (r : Component → ℕ)
    (he : ∀ p ∈ e, r p.2 < r p.1) : NoCycle e := by
  intro n a
  cases h : reachB e n a a with
  | false => rfl
  | true => exact absurd (reachB_rank_lt e r he n a a h) (lt_irrefl _)

/-- C1: The orchestrator instantiates components in the fixed order Network,
Registry, Database, Identity, Compute, Edge; every consumed output comes from
a component instantiated strictly earlier (topological order); in particular
Database precedes Compute, Compute consumes Database's generated-credential
handle and protective-boundary (security-group) handle, and Database consumes
no output of Compute. -/
theorem c1_construction_order :
    instantiationOrder =
      [Component.network, .registry, .database, .identity, .compute, .edge] ∧
    instantiationOrder.indexOf Component.database <
      instantiationOrder.indexOf Component.compute ∧
    (Component.database, Handle.dbSecret) ∈ consumedOutputs .compute ∧
    (Component.database, Handle.dbSecurityGroup) ∈ consumedOutputs .compute ∧
    (∀ h : Handle, (Component.compute, h) ∉ consumedOutputs .database) ∧
    (∀ c : Component, ∀ p ∈ consumedOutputs c,
      instantiationOrder.indexOf p.1 < instantiationOrder.indexOf c) := by
  refine ⟨rfl, by decide, by decide, by decide, by decide, ?_⟩
  decide

/-- C2: The deploy-after edges registered by bin/app.ts are exactly Compute
after Database, Compute after Network, Database after Network, Edge after
Compute, Edge after Network, and Edge after Identity; every consumed output
has a matching edge; the graph is acyclic; and it stays acyclic after the
Edge-after-Identity edge is removed. -/
theorem c2_deploy_after_graph :
    deployAfterEdges =
      [(Component.compute, Component.database), (.compute, .network),
       (.database, .network), (.edge, .compute), (.edge, .network),
       (.edge, .identity)] ∧
    (∀ c : Component, ∀ p ∈ consumedOutputs c, (c, p.1) ∈ deployAfterEdges) ∧
    NoCycle deployAfterEdges ∧
    deployAfterEdgesNoIdentity =
      [(Component.compute, Component.database), (.compute, .network),
       (.database, .network), (.edge, .compute), (.edge, .network)] ∧
    NoCycle deployAfterEdgesNoIdentity := by
  refine ⟨rfl, by decide, noCycle_of_rank _ deployRank (by decide), by decide,
    noCycle_of_rank _ deployRank (by decide)⟩

/-- C3 counterexample: with FRONTEND_DOMAIN configured as example.com, the
terminal output is the literal https-prefixed URL, which is not equal to the
custom domain name itself. -/
theorem c3_counterexample :
    frontendURL { FRONTEND_DOMAIN := some "example.com" } =
      StrVal.lit "https://example.com" ∧
    frontendURL { FRONTEND_DOMAIN := some "example.com" } ≠
      StrVal.lit "example.com" := by
  decide

/-- C3 (amended): the terminal output FrontendURL equals the string https://
followed by the custom domain name when FRONTEND_DOMAIN is configured
(present and non-empty), and otherwise equals the Edge component's generated
distribution domainName attribute. -/
theorem c3_frontend_url (ov : Overrides) :
    (∀ d, ov.FRONTEND_DOMAIN = some d → d ≠ "" →
      frontendURL ov = .lit ("https://" ++ d)) ∧
    ((ov.FRONTEND_DOMAIN = none ∨ ov.FRONTEND_DOMAIN = some "") →
      frontendURL ov = .attrOf .edge "domainName") := by
  constructor
  · intro d hd hne
    simp [frontendURL, hd, hne]
  · rintro (h | h) <;> simp [frontendURL, h]

/-- C3 witness: the amended theorem evaluated at a configured and at an
unconfigured override mapping. -/
theorem c3_frontend_url_witness :
    frontendURL { FRONTEND_DOMAIN := some "example.com" } =
      StrVal.lit "https://example.com" ∧
    frontendURL {} = StrVal.attrOf .edge "domainName" :=
  ⟨(c3_frontend_url { FRONTEND_DOMAIN := some "example.com" }).1 "example.com" rfl
      (by decide),
   (c3_frontend_url {}).2 (Or.inl rfl)⟩

/-- C4 counterexample: the override MAX_AZS set to the string -3 resolves to
the number -3, which is negative (hence no positive integer) and is not the
documented default 2: the resolver passes negative parses through instead of
falling back. -/
theorem c4_counterexample :
    ∃ q : ℚ, (resolveConfig { MAX_AZS := some "-3" }).maxAzs = JsNum.fin q ∧
      q < 0 ∧ q ≠ 2 :=
  ⟨-3, by decide, by decide, by decide⟩

/-- C4 (amended): each numeric setting is resolved by the `Number(x) || d`
idiom with its documented default, and that idiom returns the documented
default exactly when the override is absent, non-numeric (NaN), or parses to
zero (in particular when empty), while any non-zero finite parse - positive
integer or not - is returned as-is. -/
theorem c4_numeric_resolution (ov : Overrides) :
    (resolveConfig ov).maxAzs = resolveNum ov.MAX_AZS 2 ∧
    (resolveConfig ov).containerPort = resolveNum ov.ECS_CONTAINER_PORT 80 ∧
    (resolveConfig ov).desiredCount = resolveNum ov.ECS_DESIRED_COUNT 2 ∧
    (resolveConfig ov).cpu = resolveNum ov.ECS_TASK_CPU 256 ∧
    (resolveConfig ov).memory = resolveNum ov.ECS_TASK_MEMORY 512 ∧
    (∀ v : Option String, ∀ d : ℚ,
      (v = none → resolveNum v d = .fin d) ∧
      (∀ s, v = some s → jsStringToNum s = .nan → resolveNum v d = .fin d) ∧
      (∀ s, v = some s → jsStringToNum s = .fin 0 → resolveNum v d = .fin d) ∧
      (∀ s q, v = some s → jsStringToNum s = .fin q → q ≠ 0 →
        resolveNum v d = .fin q)) := by
  refine ⟨rfl, rfl, rfl, rfl, rfl, ?_⟩
  intro v d
  refine ⟨?_, ?_, ?_, ?_⟩
  · intro hv; subst hv; rfl
  · intro s hv hs; subst hv; simp [resolveNum, jsNumOfEnv, hs, JsNum.truthy]
  · intro s hv hs; subst hv; simp [resolveNum, jsNumOfEnv, hs, JsNum.truthy]
  · intro s q hv hs hq; subst hv; simp [resolveNum, jsNumOfEnv, hs, JsNum.truthy, hq]

/-- C4 witness: the amended characterization evaluated at a non-numeric
override (falls back to the default) and at a positive integer override
(returned as parsed). -/
theorem c4_numeric_resolution_witness :
    resolveNum (some "abc") 2 = JsNum.fin 2 ∧
    resolveNum (some "7") 2 = JsNum.fin 7 :=
  ⟨((c4_numeric_resolution {}).2.2.2.2.2 (some "abc") 2).2.1 "abc" rfl (by decide),
   ((c4_numeric_resolution {}).2.2.2.2.2 (some "7") 2).2.2.2 "7" 7 rfl (by decide)
     (by decide)⟩

/-- C8 counterexample: with no overrides, the resolver's DB engine version
default is the string 8.0 (not the documented 8.0.28), and its ECR repository
name fallback is webapp-core-app-repo (not the documented webapp-core-app). -/
theorem c8_counterexample :
    (resolveConfig {}).dbEngineVersion = "8.0" ∧ "8.0" ≠ "8.0.28" ∧
    (resolveConfig {}).repoName = "webapp-core-app-repo" ∧
    "webapp-core-app-repo" ≠ "webapp-core-app" := by
  decide

/-- C8 (amended): with no override, the resolver returns exactly the
hardcoded fallbacks of bin/app.ts: region us-east-1, project name
webapp-core, VPC CIDR 10.0.0.0/16, MAX_AZS 2, DB engine mysql, DB engine
version 8.0 (the documented 8.0.28 is only the hardcoded RDS engine version,
not the resolver default), DB name appdb, DB username admin, ECR repository
name webapp-core-app-repo (not the documented webapp-core-app), desired
count 2, task CPU 256, task memory 512, container port 80. -/
theorem c8_defaults :
    resolveConfig {} =
      { envRegion := "us-east-1"
        projectName := "webapp-core"
        cidr := "10.0.0.0/16"
        maxAzs := .fin 2
        repoName := "webapp-core-app-repo"
        dbName := "appdb"
        dbEngine := "mysql"
        dbEngineVersion := "8.0"
        dbInstanceClass := "db.t3.micro"
        dbUsername := "admin"
        userPoolName := "webapp-core-users"
        webClientName := "webapp-core-web-client"
        clusterName := "webapp-core-cluster"
        taskImage := none
        containerPort := .fin 80
        desiredCount := .fin 2
        cpu := .fin 256
        memory := .fin 512
        bucketName := "webapp-core-frontend-bucket"
        cloudFrontDomain := none
        cloudFrontCertArn := none
        backendCertArn := none } := by
  decide

/-- C5 counterexample: the malformed override DB_INSTANCE_CLASS set to the
single-segment string large makes the Database component instantiation throw
a TypeError instead of falling back to the default instance class. -/
theorem c5_counterexample :
    buildDatabaseStack (resolveConfig { DB_INSTANCE_CLASS := some "large" }) =
      .error "TypeError: undefined has no toUpperCase" := by
  decide

/-- C5 (amended): component instantiation raises no exception for a
malformed DB_INSTANCE_CLASS override exactly when the resolved value has at
least three dot-separated segments; in that case unknown class or size names
fall back silently to t3/micro, while a value with fewer than three segments
(e.g. large) throws a TypeError during instantiation. -/
theorem c5_lenient_parsing (cfg : Config) :
    ((∃ r, buildDatabaseStack cfg = .ok r) ↔
      3 ≤ (splitDot cfg.dbInstanceClass).length) ∧
    (∀ p0 p1 p2 rest, splitDot cfg.dbInstanceClass = p0 :: p1 :: p2 :: rest →
      buildDatabaseStack cfg =
        .ok { engine := chooseEngine cfg.dbEngine
              instanceClass := lookupEnum instanceClassPairs (upperStr p1) "t3"
              instanceSize := lookupEnum instanceSizePairs (upperStr p2) "micro"
              secretUsername := cfg.dbUsername
              databaseName := cfg.dbName }) := by
  rcases hp : splitDot cfg.dbInstanceClass with _ | ⟨p0, _ | ⟨p1, _ | ⟨p2, rest⟩⟩⟩
  · constructor
    · constructor
      · rintro ⟨r, hr⟩
        simp [buildDatabaseStack, parseDbInstanceType, hp] at hr
      · intro h; simp at h
    · intro q0 q1 q2 qrest h; exact List.noConfusion h
  · constructor
    · constructor
      · rintro ⟨r, hr⟩
        simp [buildDatabaseStack, parseDbInstanceType, hp] at hr
      · intro h; simp at h
    · intro q0 q1 q2 qrest h
      injection h with h0 h
      exact List.noConfusion h
  · constructor
    · constructor
      · rintro ⟨r, hr⟩
        simp [buildDatabaseStack, parseDbInstanceType, hp] at hr
      · intro h; simp at h
    · intro q0 q1 q2 qrest h
      injection h with h0 h
      injection h with h1 h
      exact List.noConfusion h
  · constructor
    · constructor
      · intro _
        simp only [List.length_cons]
        omega
      · intro _
        exact ⟨{ engine := chooseEngine cfg.dbEngine
                 instanceClass := lookupEnum instanceClassPairs (upperStr p1) "t3"
                 instanceSize := lookupEnum instanceSizePairs (upperStr p2) "micro"
                 secretUsername := cfg.dbUsername
                 databaseName := cfg.dbName },
               by simp [buildDatabaseStack, parseDbInstanceType, hp]⟩
    · intro q0 q1 q2 qrest h
      injection h with h0 h
      injection h with h1 h
      injection h with h2 h
      subst h1; subst h2
      simp [buildDatabaseStack, parseDbInstanceType, hp]

/-- C5 witness: the amended theorem applied to the default configuration,
whose db.t3.micro value has three segments and so instantiates without an
exception, yielding the t3/micro mysql instance. -/
theorem c5_lenient_parsing_witness :
    buildDatabaseStack (resolveConfig {}) =
      .ok { engine := "mysql@8.0.28", instanceClass := "t3", instanceSize := "micro",
            secretUsername := "admin", databaseName := "appdb" } :=
  ((c5_lenient_parsing (resolveConfig {})).2 "db" "t3" "micro" [] (by decide)).trans
    (by decide)

/-- C6: the container's DB_HOST variable is wired to the database security
group's id token, not to the database's network address (the DatabaseStack's
DatabaseEndpoint socket-address output) - evaluating the code at any
configuration exhibits the defect the claim (and the source's own comment)
describes. -/
theorem c6_db_host_is_sg_id :
    ecsContainerEnv.lookup "DB_HOST" = some (EnvVal.sgId .dbSecurityGroupRef) ∧
    ecsContainerEnv.lookup "DB_HOST" ≠ some databaseEndpointOutput ∧
    resOwner .dbSecurityGroupRef = .database := by
  decide

/-- C10: the container's DB_NAME variable is set to the username field of
the database credential secret, identical to DB_USER; both branches of the
source's conditional produce that same value; and the value is no literal
string at all, in particular never the configured database name. -/
theorem c10_db_name_is_secret_username :
    ecsContainerEnv.lookup "DB_NAME" =
      some (EnvVal.secretJsonField .dbSecretRef "username") ∧
    ecsContainerEnv.lookup "DB_NAME" = ecsContainerEnv.lookup "DB_USER" ∧
    (∀ b : Bool, dbNameEnvValue b = .secretJsonField .dbSecretRef "username") ∧
    (∀ ov : Overrides,
      ecsContainerEnv.lookup "DB_NAME" ≠ some (EnvVal.lit (resolveConfig ov).dbName)) := by
  refine ⟨by decide, by decide, by decide, ?_⟩
  intro ov h
  rw [show ecsContainerEnv.lookup "DB_NAME" =
        some (EnvVal.secretJsonField .dbSecretRef "username") from by decide] at h
  injection h with h1
  exact EnvVal.noConfusion h1

/-- C9: for every override mapping the VPC is declared with maxAzs equal to
the resolved MAX_AZS value and natGateways equal to that same value; in
particular the override MAX_AZS set to 3 yields AZ count 3 and NAT-gateway
count 3. -/
theorem c9_max_azs (ov : Overrides) :
    (buildNetworkVpc (resolveConfig ov)).maxAzs = (resolveConfig ov).maxAzs ∧
    (buildNetworkVpc (resolveConfig ov)).natGateways =
      (buildNetworkVpc (resolveConfig ov)).maxAzs ∧
    (ov.MAX_AZS = some "3" →
      (buildNetworkVpc (resolveConfig ov)).maxAzs = .fin 3 ∧
      (buildNetworkVpc (resolveConfig ov)).natGateways = .fin 3) := by
  refine ⟨rfl, rfl, ?_⟩
  intro h
  have hm : (resolveConfig ov).maxAzs = .fin 3 := by
    show resolveNum ov.MAX_AZS 2 = .fin 3
    rw [h]
    decide
  exact ⟨hm, hm⟩

/-- C9 witness: the theorem applied to the override mapping that sets only
MAX_AZS to 3. -/
theorem c9_max_azs_witness :
    (buildNetworkVpc (resolveConfig { MAX_AZS := some "3" })).maxAzs = .fin 3 ∧
    (buildNetworkVpc (resolveConfig { MAX_AZS := some "3" })).natGateways = .fin 3 :=
  (c9_max_azs { MAX_AZS := some "3" }).2.2 rfl

/-- C7 counterexample: the database-access rule addition is performed by the
Compute component on a security group owned by the Database component, so a
downstream consumer does mutate a handle produced by another component. -/
theorem c7_counterexample :
    dbAccessRule ∈ allRuleAdds (resolveConfig {}) ["10.0.3.0/24", "10.0.4.0/24"] ∧
    resOwner dbAccessRule.target ≠ dbAccessRule.actor := by
  decide

/-- C7 (amended): every security-group rule addition of the construction
pass modifies a group owned by the component performing it, except the
single database-access rule: that one is established by Compute adding an
ingress rule to the Database's protective boundary, allowing Compute's own
boundary on the database port 3306. -/
theorem c7_rule_ownership (cfg : Config) (appSubnetCidrs : List String) :
    (∀ r ∈ allRuleAdds cfg appSubnetCidrs,
      resOwner r.target = r.actor ∨ r = dbAccessRule) ∧
    dbAccessRule ∈ allRuleAdds cfg appSubnetCidrs ∧
    dbAccessRule.actor = .compute ∧
    dbAccessRule.target = .dbSecurityGroupRef ∧
    resOwner .dbSecurityGroupRef = .database ∧
    dbAccessRule.peer = .sg .ecsSecurityGroupRef ∧
    dbAccessRule.port = .fin 3306 := by
  refine ⟨?_, ?_, rfl, rfl, rfl, rfl, rfl⟩
  · intro r hr
    rcases List.mem_append.mp hr with hn | he
    · rcases List.mem_map.mp hn with ⟨c, _, rfl⟩
      left
      rfl
    · unfold ecsRuleAdds at he
      rcases List.mem_append.mp he with h12 | hdb
      · rcases List.mem_append.mp h12 with h1 | h4
        · simp only [List.mem_cons, List.not_mem_nil, or_false] at h1
          rcases h1 with rfl | rfl | rfl <;> exact Or.inl rfl
        · cases hb : envTruthy cfg.backendCertArn with
          | true => rw [hb] at h4; simp at h4
          | false =>
            rw [hb] at h4
            simp only [Bool.false_eq_true, if_false, List.mem_singleton] at h4
            subst h4
            exact Or.inl rfl
      · simp only [List.mem_singleton] at hdb
        subst hdb
        exact Or.inr rfl
  · unfold allRuleAdds ecsRuleAdds
    refine List.mem_append.mpr (Or.inr ?_)
    exact List.mem_append.mpr (Or.inr (List.mem_singleton.mpr rfl))

/-- C7 witness: the amended theorem's per-rule disjunction evaluated at the
database-access rule under the default configuration. -/
theorem c7_rule_ownership_witness :
    resOwner dbAccessRule.target = dbAccessRule.actor ∨ dbAccessRule = dbAccessRule :=
  (c7_rule_ownership (resolveConfig {}) ["10.0.3.0/24"]).1 dbAccessRule (by decide)

end WebappCore
